import Mathlib

/-
Formal model of the filter/aggregation pipeline of `streamlit_app_bank.py`
(Bank Customer Insights & Marketing Optimization Dashboard).

The dashboard loads a semicolon-delimited dataset into a dataframe `df`,
lets the user pick an age range, a set of jobs, and (when the `month`
column exists) a set of months, computes a filtered view

    filtered = df[(df['age'] >= age_range[0]) &
                  (df['age'] <= age_range[1]) &
                  (df['job'].isin(selected_jobs))]
    if selected_months is not None:
        filtered = filtered[filtered["month"].isin(selected_months)]

and derives summary metrics (`avg_age`, `top_job`, `subscription_rate`),
a job-count bar chart (`job_counts`, optionally re-sorted by count), and a
correlation heatmap guarded by `filtered.select_dtypes(include='number').empty`.

Records are embedded as one structure per row.  A dataset carries, besides
its rows, the schema facts the app branches on: whether the optional
`month` and `y` columns exist, and how many numeric columns it has besides
the mandatory `age` column.  Floating-point means and rates are embedded
as rationals, with `Option` used for pandas' NaN / Python's `None`.
-/

/-- One row of the dataset.  `month` and `y` only carry meaning when the
corresponding column exists in the dataset (see `Dataset`). -/
structure Record where
  age : Int
  job : String
  month : String
  y : String
deriving DecidableEq

/-- The sidebar selections.  `selected_months` is `none` exactly when the
dataset has no `month` column (the app then never builds the month widget). -/
structure Criteria where
  age_min : Int
  age_max : Int
  selected_jobs : List String
  selected_months : Option (List String)
deriving DecidableEq

/-- The loaded dataframe: its rows plus the schema facts the app branches
on.  `otherNumericCols` counts the numeric columns besides `age`; the
`age` column itself is always present and numeric (the age slider calls
`int(df['age'].min())` on it). -/
structure Dataset where
  hasMonth : Bool
  hasY : Bool
  otherNumericCols : Nat
  rows : List Record
deriving DecidableEq

/-- The filter pipeline of lines 59-66: one boolean-mask filter for age
range and job membership, then, when `selected_months is not None`, a
second filter for month membership. -/
def filterApply (rows : List Record) (c : Criteria) : List Record :=
  let f1 := rows.filter (fun r =>
    decide (c.age_min ≤ r.age) && decide (r.age ≤ c.age_max) &&
      decide (r.job ∈ c.selected_jobs))
  match c.selected_months with
  | none => f1
  | some ms => f1.filter (fun r => decide (r.month ∈ ms))

/-- The month clause of the active predicates: vacuously true when no
month selection is active. -/
def monthPass (c : Criteria) (r : Record) : Bool :=
  match c.selected_months with
  | none => true
  | some ms => decide (r.month ∈ ms)

/-- The conjunction of all active filter predicates on one record. -/
def activePred (c : Criteria) (r : Record) : Bool :=
  decide (c.age_min ≤ r.age) && decide (r.age ≤ c.age_max) &&
    decide (r.job ∈ c.selected_jobs) && monthPass c r

/-- Number of occurrences of value `v` in a column, as `series == v` counts. -/
def countEq (l : List String) (v : String) : Nat :=
  (l.filter (fun x => decide (x = v))).length

/-- The distinct values of a column in first-seen order, as pandas
enumerates the groups of an object column. -/
def dedupFirst : List String → List String
  | [] => []
  | x :: xs => x :: (dedupFirst xs).filter (fun v => decide (v ≠ x))

/-- Job names compare in code-point lexicographic order, as Python string
comparison (and hence pandas sorting) does. -/
def strLe (a b : String) : Prop := a.toList ≤ b.toList

instance : DecidableRel strLe :=
  fun a b => inferInstanceAs (Decidable (a.toList ≤ b.toList))

instance : IsTotal String strLe := ⟨fun a b => le_total a.toList b.toList⟩

instance : IsTrans String strLe := ⟨fun _ _ _ h₁ h₂ => le_trans h₁ h₂⟩

/-- Ordering of `(job, count)` pairs by descending count, the order
`value_counts()` emits and `sort_values("count", ascending=False)` enforces. -/
def countGE (a b : String × Nat) : Prop := b.2 ≤ a.2

instance : DecidableRel countGE := fun a b => Nat.decLe b.2 a.2

instance : IsTotal (String × Nat) countGE := ⟨fun a b => Nat.le_total b.2 a.2⟩

instance : IsTrans (String × Nat) countGE := ⟨fun _ _ _ h₁ h₂ => Nat.le_trans h₂ h₁⟩

/-- `series.value_counts()`: one `(value, count)` pair per distinct value,
sorted by descending count (ties kept in first-seen order; the sort is
stable). -/
def value_counts (l : List String) : List (String × Nat) :=
  List.insertionSort countGE ((dedupFirst l).map (fun v => (v, countEq l v)))

/-- Lines 149-154: `job_counts = filtered["job"].value_counts().reset_index()`,
then re-sorted by descending count only when the radio reads "Most Common".
The "Alphabetical" branch performs no sort of its own. -/
def job_counts (view : List Record) (sort_type : String) : List (String × Nat) :=
  let jc := value_counts (view.map Record.job)
  if sort_type = "Most Common" then List.insertionSort countGE jc else jc

/-- `series.mode()`: the values of maximal count, sorted ascending. -/
def modeList (l : List String) : List String :=
  List.insertionSort strLe
    ((dedupFirst l).filter (fun v =>
      (dedupFirst l).all (fun w => decide (countEq l w ≤ countEq l v))))

/-- Line 80: `filtered["job"].mode()[0] if not filtered.empty else "N/A"`. -/
def top_job (view : List Record) : String :=
  if view.isEmpty then "N/A" else (modeList (view.map Record.job)).headD ""

/-- Line 79: `filtered["age"].mean()`, which is NaN (here `none`) on an
empty column and the exact arithmetic mean otherwise. -/
def avg_age (view : List Record) : Option Rat :=
  match view with
  | [] => none
  | _ => some (((view.map Record.age).sum : Rat) / (view.length : Rat))

/-- `series.value_counts(normalize=True).get(v, 0)`: the relative frequency
of `v` when `v` occurs in the column, and the default `0` otherwise (in
particular `0` on an empty column, where no division is performed). -/
def value_counts_norm_get (l : List String) (v : String) : Rat :=
  if countEq l v = 0 then 0 else (countEq l v : Rat) / (l.length : Rat)

/-- Lines 81-84: the subscription rate is computed only when the `y` column
exists, as `value_counts(normalize=True).get("yes", 0) * 100`. -/
def subscription_rate (d : Dataset) (c : Criteria) : Option Rat :=
  if d.hasY then
    some (value_counts_norm_get ((filterApply d.rows c).map Record.y) "yes" * 100)
  else none

/-- Number of numeric columns of the dataframe (and of any row-filtered
view of it): the mandatory `age` column plus the other numeric columns. -/
def numericColCount (d : Dataset) : Nat := d.otherNumericCols + 1

/-- Lines 171-173: `filtered.select_dtypes(include='number').empty`, the
guard that decides the warning instead of the heatmap.  A dataframe is
`empty` iff either axis has length zero, so this holds iff there are no
numeric columns or the filtered view has no rows. -/
def numeric_cols_empty (d : Dataset) (c : Criteria) : Bool :=
  decide (numericColCount d = 0) || decide ((filterApply d.rows c).length = 0)

/-- Python's `"{x:.1f}"` on a possibly-NaN float: NaN renders as "nan",
a number renders as digits (digits embedded as numerator/denominator). -/
def fmt_float_1f (x : Option Rat) : String :=
  match x with
  | none => "nan"
  | some q => toString q.num ++ "/" ++ toString q.den

/-- Python's `f"{x:.2f}"` where `x` may be `None`: formatting `None` with a
float format spec raises `TypeError`; a number formats normally. -/
def fmt_float_2f (x : Option Rat) : Except String String :=
  match x with
  | none => Except.error "TypeError: unsupported format string passed to NoneType.__format__"
  | some q => Except.ok (toString q.num ++ "/" ++ toString q.den)

/-- Lines 86-92: the `st.info` insight block.  The f-string formats
`avg_age` with `:.1f` (NaN-safe), interpolates `top_job`, and formats
`subscription_rate` with `:.2f`, which raises when the rate is `None`. -/
def renderInsight (d : Dataset) (c : Criteria) : Except String String :=
  let view := filterApply d.rows c
  match fmt_float_2f (subscription_rate d c) with
  | Except.error e => Except.error e
  | Except.ok rate_str =>
    Except.ok ("Average age: " ++ fmt_float_1f (avg_age view) ++
      "; Most common job: " ++ top_job view ++
      "; Subscription likelihood: " ++ rate_str ++ "%")

/-- Sample row from the spec's scenario: age 30, job admin, y yes. -/
def rec1 : Record := ⟨30, "admin", "may", "yes"⟩

/-- Sample row from the spec's scenario: age 50, job admin, y no. -/
def rec2 : Record := ⟨50, "admin", "may", "no"⟩

/-- Sample row from the spec's scenario: age 40, job technician, y yes. -/
def rec3 : Record := ⟨40, "technician", "jun", "yes"⟩

/-- The spec's three-record scenario dataset rows. -/
def sampleRows : List Record := [rec1, rec2, rec3]

/-- The spec's scenario criteria: age in [30, 50], both jobs, no month filter. -/
def sampleCriteria : Criteria := ⟨30, 50, ["admin", "technician"], none⟩

/-- Criteria with an empty job selection (the user deselected every job). -/
def emptyJobsCriteria : Criteria := ⟨30, 50, [], none⟩

/-- Extra rows for the job-counts evaluation: two technicians, one admin. -/
def recTech35 : Record := ⟨35, "technician", "may", "no"⟩

/-- Second technician row. -/
def recTech36 : Record := ⟨36, "technician", "jun", "no"⟩

/-- Single admin row. -/
def recAdmin37 : Record := ⟨37, "admin", "may", "yes"⟩

/-- The scenario dataset with the `y` column present. -/
def yDataset : Dataset := ⟨true, true, 0, sampleRows⟩

/-- The scenario dataset with the `y` column absent. -/
def noYDataset : Dataset := ⟨false, false, 0, sampleRows⟩

/-- A dataset whose only numeric column is the mandatory `age` column. -/
def ageOnlyDataset : Dataset := ⟨false, false, 0, [rec1]⟩

/-- The two sequential boolean-mask filters equal one filter by the
conjunction of all active predicates. -/
theorem filterApply_eq_filter (rows : List Record) (c : Criteria) :
    filterApply rows c = rows.filter (activePred c) := by
  rcases c with ⟨amin, amax, jobs, months⟩
  cases months with
  | none =>
    simp only [filterApply]
    exact List.filter_congr (fun a _ => by simp [activePred, monthPass])
  | some ms =>
    simp only [filterApply, List.filter_filter]
    exact List.filter_congr (fun a _ => by simp [activePred, monthPass, Bool.and_comm])

/-- Membership in the filtered view is membership in the rows plus
satisfaction of the conjoined predicate. -/
theorem mem_filterApply {rows : List Record} {c : Criteria} {r : Record} :
    r ∈ filterApply rows c ↔ r ∈ rows ∧ activePred c r = true := by
  rw [filterApply_eq_filter, List.mem_filter]

/-- C1: a record of the dataset is in the filtered view iff its age lies in
the inclusive selected range, its job is among the selected jobs, and either
no month selection is active (`selected_months` is `none`) or its month is
among the selected months; with an empty job selection the view is the empty
sequence rather than an error. -/
theorem filter_membership_semantics (rows : List Record) (c : Criteria) :
    (∀ r : Record, r ∈ filterApply rows c ↔
        r ∈ rows ∧ c.age_min ≤ r.age ∧ r.age ≤ c.age_max ∧
          r.job ∈ c.selected_jobs ∧
          (c.selected_months = none ∨
            ∃ ms, c.selected_months = some ms ∧ r.month ∈ ms)) ∧
    (c.selected_jobs = [] → filterApply rows c = []) := by
  constructor
  · intro r
    rw [mem_filterApply]
    rcases c with ⟨amin, amax, jobs, months⟩
    cases months with
    | none =>
      simp [activePred, monthPass, and_assoc]
    | some ms =>
      simp [activePred, monthPass, and_assoc]
  · intro hj
    rw [filterApply_eq_filter]
    refine List.filter_eq_nil_iff.2 (fun r _ => ?_)
    rcases c with ⟨amin, amax, jobs, months⟩
    cases hj
    simp [activePred]

/-- Witness for C1 at the spec's scenario: the first record passes the
scenario criteria, and the empty job selection yields the empty view. -/
theorem filter_membership_semantics_witness :
    rec1 ∈ filterApply sampleRows sampleCriteria ∧
    filterApply sampleRows emptyJobsCriteria = [] :=
  ⟨((filter_membership_semantics sampleRows sampleCriteria).1 rec1).mpr
      ⟨by decide, by decide, by decide, by decide, Or.inl rfl⟩,
   (filter_membership_semantics sampleRows emptyJobsCriteria).2 rfl⟩

/-- C8: the filter is idempotent; re-applying it with identical criteria to
its own output returns the identical (value-equal) sequence, as it must for
a pure deterministic filter. -/
theorem filter_apply_idempotent (rows : List Record) (c : Criteria) :
    filterApply (filterApply rows c) c = filterApply rows c := by
  rw [filterApply_eq_filter, filterApply_eq_filter]
  exact List.filter_eq_self.mpr (fun a ha => List.of_mem_filter ha)

/-- C9: the filtered view is no longer than the dataset, every view record
occurs in the dataset, every view record satisfies all active predicates,
and every dataset record outside the view violates the conjoined predicate. -/
theorem filtered_view_invariants (rows : List Record) (c : Criteria) :
    (filterApply rows c).length ≤ rows.length ∧
    (∀ r ∈ filterApply rows c, r ∈ rows) ∧
    (∀ r ∈ filterApply rows c, activePred c r = true) ∧
    (∀ r ∈ rows, r ∉ filterApply rows c → activePred c r = false) := by
  refine ⟨?_, ?_, ?_, ?_⟩
  · rw [filterApply_eq_filter]
    exact List.length_filter_le _ _
  · intro r hr
    exact (mem_filterApply.1 hr).1
  · intro r hr
    exact (mem_filterApply.1 hr).2
  · intro r hr hnot
    cases hA : activePred c r with
    | false => rfl
    | true => exact absurd (mem_filterApply.2 ⟨hr, hA⟩) hnot

/-- Witness for C9 at the spec's scenario dataset and criteria. -/
theorem filtered_view_invariants_witness :
    (filterApply sampleRows sampleCriteria).length ≤ sampleRows.length ∧
    activePred sampleCriteria rec1 = true :=
  ⟨(filtered_view_invariants sampleRows sampleCriteria).1,
   (filtered_view_invariants sampleRows sampleCriteria).2.2.1 rec1 (by decide)⟩

/-- C2: the "Alphabetical" sort mode does not produce an alphabetically
ordered series.  The code only re-sorts for "Most Common" and otherwise
keeps the `value_counts()` order, which is descending by count: on a view
with two technicians and one admin the output lists "technician" before
"admin", and "technician" is not lexicographically at most "admin". -/
theorem alphabetical_mode_output_not_alphabetical :
    (job_counts [recTech35, recTech36, recAdmin37] "Alphabetical").map Prod.fst =
      ["technician", "admin"] ∧
    ¬ strLe "technician" "admin" := by decide

/-- C3 (amended): on an empty filtered view with the `y` column present the
subscription rate is the number 0 (the `.get("yes", 0)` default times 100),
not a NaN/absent sentinel, and the computation is total. -/
theorem subscription_rate_empty_view_zero (d : Dataset) (c : Criteria)
    (hy : d.hasY = true) (he : filterApply d.rows c = []) :
    subscription_rate d c = some 0 := by
  simp [subscription_rate, hy, he, value_counts_norm_get, countEq]

/-- Witness for C3 (amended) at the scenario dataset with every job
deselected. -/
theorem subscription_rate_empty_view_zero_witness :
    subscription_rate yDataset emptyJobsCriteria = some 0 :=
  subscription_rate_empty_view_zero yDataset emptyJobsCriteria rfl (by decide)

/-- C3 counterexample: with the `y` column present and an empty filtered
view, the computed subscription rate is present and equals 0, refuting the
claim that it is a not-a-number / absent sentinel. -/
theorem subscription_rate_empty_view_not_sentinel :
    subscription_rate yDataset emptyJobsCriteria ≠ none ∧
    subscription_rate yDataset emptyJobsCriteria = some 0 := by
  have he : filterApply sampleRows emptyJobsCriteria = [] := by decide
  refine ⟨?_, ?_⟩
  · simp [subscription_rate, yDataset]
  · simp [subscription_rate, yDataset, he, value_counts_norm_get, countEq]

/-- C4 (amended): the correlation step shows the warning iff the numeric
subframe is empty, i.e. iff there are no numeric columns or the filtered
view has no rows; since the `age` column is always numeric, in this app
that means exactly when the view is empty. -/
theorem corr_warning_iff_numeric_frame_empty (d : Dataset) (c : Criteria) :
    numeric_cols_empty d c = true ↔
      (numericColCount d = 0 ∨ filterApply d.rows c = []) := by
  simp [numeric_cols_empty, List.length_eq_zero]

/-- Witness for C4 (amended): an empty view makes the guard fire. -/
theorem corr_warning_iff_numeric_frame_empty_witness :
    numeric_cols_empty yDataset emptyJobsCriteria = true :=
  (corr_warning_iff_numeric_frame_empty yDataset emptyJobsCriteria).mpr
    (Or.inr (by decide))

/-- C4 counterexample: a dataset whose numeric column count is nonzero
(the `age` column) still triggers the warning when the filtered view has
zero rows, refuting "warning iff zero numeric columns" and "zero rows with
a numeric column still produces a matrix". -/
theorem corr_warning_despite_numeric_col :
    numeric_cols_empty ageOnlyDataset emptyJobsCriteria = true ∧
    numericColCount ageOnlyDataset ≠ 0 ∧
    filterApply ageOnlyDataset.rows emptyJobsCriteria = [] := by decide

/-- C5: when the dataset lacks the `y` column the subscription rate is
`None` and never computed, as claimed; but rendering the insight block then
raises a `TypeError` (formatting `None` with the `:.2f` float spec), so the
edge case is not handled locally with a sentinel all the way to the
presentation layer. -/
theorem missing_label_rate_none_render_raises (d : Dataset) (c : Criteria)
    (h : d.hasY = false) :
    subscription_rate d c = none ∧
    renderInsight d c = Except.error
      "TypeError: unsupported format string passed to NoneType.__format__" := by
  have hr : subscription_rate d c = none := by simp [subscription_rate, h]
  exact ⟨hr, by simp [renderInsight, hr, fmt_float_2f]⟩

/-- Witness for C5 at the scenario dataset without a `y` column. -/
theorem missing_label_rate_none_render_raises_witness :
    subscription_rate noYDataset sampleCriteria = none ∧
    renderInsight noYDataset sampleCriteria = Except.error
      "TypeError: unsupported format string passed to NoneType.__format__" :=
  missing_label_rate_none_render_raises noYDataset sampleCriteria rfl

/-- C6: summarizing an empty filtered view is total and yields the
sentinels: the average age is NaN (absent) and the top job is "N/A". -/
theorem summarize_empty_view (view : List Record) (h : view = []) :
    avg_age view = none ∧ top_job view = "N/A" := by
  subst h
  exact ⟨rfl, rfl⟩

/-- Witness for C6 at the empty view. -/
theorem summarize_empty_view_witness :
    avg_age ([] : List Record) = none ∧ top_job [] = "N/A" :=
  summarize_empty_view [] rfl

/-- C7: under the "Most Common" sort mode the job-counts series is ordered
by non-increasing count (the re-sort by descending count guarantees this
for every view; the tie order is whatever the stable sort preserves). -/
theorem most_common_sorted_desc (view : List Record) :
    List.Sorted countGE (job_counts view "Most Common") := by
  have h : job_counts view "Most Common" =
      List.insertionSort countGE (value_counts (view.map Record.job)) := by
    simp [job_counts]
  rw [h]
  exact List.sorted_insertionSort countGE _

/-- `strLe` is reflexive. -/
theorem strLe_refl (a : String) : strLe a a := le_refl a.toList

/-- Deduplication preserves the set of values of a column. -/
theorem mem_dedupFirst (v : String) : ∀ (l : List String), v ∈ dedupFirst l ↔ v ∈ l
  | [] => Iff.rfl
  | x :: xs => by
    simp only [dedupFirst, List.mem_cons, List.mem_filter, decide_eq_true_eq]
    constructor
    · rintro (rfl | ⟨hv, _⟩)
      · exact Or.inl rfl
      · exact Or.inr ((mem_dedupFirst v xs).1 hv)
    · rintro (rfl | hv)
      · exact Or.inl rfl
      · by_cases hx : v = x
        · exact Or.inl hx
        · exact Or.inr ⟨(mem_dedupFirst v xs).2 hv, hx⟩

/-- Deduplicating a nonempty column gives a nonempty value list. -/
theorem dedupFirst_ne_nil {l : List String} (h : l ≠ []) : dedupFirst l ≠ [] := by
  cases l with
  | nil => exact absurd rfl h
  | cons x xs => simp [dedupFirst]

/-- Every nonempty list of values has one of maximal count. -/
theorem exists_max_count (f : String → Nat) :
    ∀ (l : List String), l ≠ [] → ∃ v ∈ l, ∀ w ∈ l, f w ≤ f v
  | [], h => absurd rfl h
  | [x], _ => ⟨x, List.mem_singleton_self x, by
      intro w hw
      rcases List.mem_singleton.1 hw with rfl
      exact Nat.le_refl _⟩
  | x :: y :: ys, _ => by
    obtain ⟨v, hv, hmax⟩ := exists_max_count f (y :: ys) (List.cons_ne_nil y ys)
    rcases Nat.le_total (f v) (f x) with hle | hle
    · refine ⟨x, List.mem_cons_self x (y :: ys), ?_⟩
      intro w hw
      rcases List.mem_cons.1 hw with rfl | hw'
      · exact Nat.le_refl _
      · exact Nat.le_trans (hmax w hw') hle
    · refine ⟨v, List.mem_cons_of_mem x hv, ?_⟩
      intro w hw
      rcases List.mem_cons.1 hw with rfl | hw'
      · exact hle
      · exact hmax w hw'

/-- A value is a mode iff it is a value of the column whose count bounds
the count of every value of the column. -/
theorem mem_modeList {l : List String} {v : String} :
    v ∈ modeList l ↔
      v ∈ dedupFirst l ∧ ∀ w ∈ dedupFirst l, countEq l w ≤ countEq l v := by
  simp [modeList, List.mem_insertionSort, List.mem_filter, List.all_eq_true]

/-- The head of a nonempty list (with a default) is a member. -/
theorem headD_mem_of_ne_nil {l : List String} (h : l ≠ []) : l.headD "" ∈ l := by
  cases l with
  | nil => exact absurd rfl h
  | cons x xs => exact List.mem_cons_self x xs

/-- In a list sorted by `strLe`, the head is at most every member. -/
theorem sorted_headD_le {l : List String} (hs : List.Sorted strLe l) {v : String}
    (hv : v ∈ l) : strLe (l.headD "") v := by
  cases l with
  | nil => cases hv
  | cons x xs =>
    rcases List.mem_cons.1 hv with rfl | hv'
    · exact strLe_refl v
    · exact (List.sorted_cons.1 hs).1 v hv'

/-- C10: on a nonempty view, `top_job` (i.e. `mode()[0]`) is one of the
view's jobs, its count is maximal among the view's jobs, and among the
maximal-count jobs it is the lexicographically smallest, because `mode()`
returns the modes sorted ascending and `[0]` takes the first. -/
theorem top_job_max_freq_lex_min (view : List Record) (h : view ≠ []) :
    top_job view ∈ view.map Record.job ∧
    (∀ w ∈ view.map Record.job,
      countEq (view.map Record.job) w ≤ countEq (view.map Record.job) (top_job view)) ∧
    (∀ v ∈ view.map Record.job,
      (∀ w ∈ view.map Record.job,
        countEq (view.map Record.job) w ≤ countEq (view.map Record.job) v) →
      strLe (top_job view) v) := by
  have hne : view.isEmpty = false := by
    cases view with
    | nil => exact absurd rfl h
    | cons r rs => rfl
  have hjobs : view.map Record.job ≠ [] := by
    cases view with
    | nil => exact absurd rfl h
    | cons r rs => exact List.cons_ne_nil _ _
  have htop : top_job view = (modeList (view.map Record.job)).headD "" := by
    simp [top_job, hne]
  obtain ⟨v₀, hv₀m, hv₀max⟩ :=
    exists_max_count (countEq (view.map Record.job)) (dedupFirst (view.map Record.job))
      (dedupFirst_ne_nil hjobs)
  have hv₀ : v₀ ∈ modeList (view.map Record.job) := mem_modeList.2 ⟨hv₀m, hv₀max⟩
  have hmne : modeList (view.map Record.job) ≠ [] := List.ne_nil_of_mem hv₀
  have hmem : (modeList (view.map Record.job)).headD "" ∈ modeList (view.map Record.job) :=
    headD_mem_of_ne_nil hmne
  obtain ⟨hmd, hmax⟩ := mem_modeList.1 hmem
  refine ⟨?_, ?_, ?_⟩
  · rw [htop]
    exact (mem_dedupFirst _ _).1 hmd
  · intro w hw
    rw [htop]
    exact hmax w ((mem_dedupFirst w _).2 hw)
  · intro v hv hvmax
    have hvd : v ∈ dedupFirst (view.map Record.job) := (mem_dedupFirst v _).2 hv
    have hvdmax : ∀ w ∈ dedupFirst (view.map Record.job),
        countEq (view.map Record.job) w ≤ countEq (view.map Record.job) v :=
      fun w hw => hvmax w ((mem_dedupFirst w _).1 hw)
    have hvm : v ∈ modeList (view.map Record.job) := mem_modeList.2 ⟨hvd, hvdmax⟩
    rw [htop]
    exact sorted_headD_le (List.sorted_insertionSort strLe _) hvm

/-- Witness for C10 at the spec's scenario view, where "admin" has maximal
frequency: the top job is a job of the view and is at most "admin". -/
theorem top_job_max_freq_lex_min_witness :
    top_job sampleRows ∈ sampleRows.map Record.job ∧
    strLe (top_job sampleRows) "admin" :=
  ⟨(top_job_max_freq_lex_min sampleRows (by decide)).1,
   (top_job_max_freq_lex_min sampleRows (by decide)).2.2 "admin" (by decide) (by decide)⟩
